import Mathlib

/-
Verification of the BounceTales 2.0 physics/level core
(src/player.py, src/level_manager.py, src/main.py).

Embedding conventions:
* Python float arithmetic is embedded over the exact rationals ℚ; every
  constant appearing in the source (0.5, 0.7, 0.9, ...) is an exact rational.
* The comparison `math.sqrt(d2) <= radius` in PlayerBall.check_collision is
  embedded as `d2 ≤ radius^2`, which is equivalent over the reals since both
  sides are nonnegative.
* `config.py` is not part of src/.  The specification (section 6) states that
  the screen dimension constants and the gravity constant are configuration
  inputs supplied by the host, so the embedding takes them as an explicit
  `Config` parameter.
* Python dictionaries with optional keys (`platform.get(type)`,
  `enemy.get(speed, 1)`, the persisted customization blob) are embedded as
  structures with `Option` fields; `d.get(k, v)` becomes `field.getD v`.
* Render-only fields (colors, textures, background, glow settings) are never
  read by any embedded operation and are omitted from the structures.
-/

/-- Modelled from the spec: `config.py` is absent from src/; section 6 of the
spec says screen dimensions and gravity are host-supplied configuration
inputs, so they are parameters of the embedding rather than fixed literals. -/
structure Config where
  SCREEN_WIDTH : ℚ
  SCREEN_HEIGHT : ℚ
  GRAVITY : ℚ
deriving DecidableEq

/-- The numeric customization fields of player.py read by the core
(`size` is the collision radius, `bounce_factor` the vertical restitution,
`opacity` the alpha value; the remaining keys of the Python dict are
render-only and omitted). -/
structure Customization where
  size : ℚ
  bounce_factor : ℚ
  opacity : ℚ
deriving DecidableEq

/-- Defaults set in PlayerBall.__init__ (player.py lines 17-27):
size 20, bounce_factor 0.7, opacity 255. -/
def defaultCustomization : Customization :=
  { size := 20, bounce_factor := 7/10, opacity := 255 }

/-- A persisted customization mapping as read from customization.json:
each key may be present or missing. -/
structure SavedCustomization where
  size : Option ℚ
  bounce_factor : Option ℚ
  opacity : Option ℚ
deriving DecidableEq

/-- PlayerBall.load_customization (player.py lines 37-48):
`self.customization.update(saved)` overwrites exactly the keys present in the
saved mapping and keeps the default for missing keys.  No range check or
clamping is performed here. -/
def load_customization (saved : SavedCustomization) (c : Customization) :
    Customization :=
  { size := saved.size.getD c.size,
    bounce_factor := saved.bounce_factor.getD c.bounce_factor,
    opacity := saved.opacity.getD c.opacity }

/-- The mutable state of a PlayerBall (player.py lines 8-14 plus the
customization dict).  The attributes max_vel_x, acceleration and friction are
set to fixed constants in __init__ and are embedded as top-level constants. -/
structure PlayerBall where
  x : ℚ
  y : ℚ
  vel_x : ℚ
  vel_y : ℚ
  on_ground : Bool
  customization : Customization
deriving DecidableEq

/-- player.py line 33: `self.max_vel_x = 12`. -/
def max_vel_x : ℚ := 12

/-- player.py line 34: `self.acceleration = 0.8`. -/
def acceleration : ℚ := 4/5

/-- player.py line 35: `self.friction = 0.9`. -/
def friction : ℚ := 9/10

/-- PlayerBall.__init__ (player.py lines 8-35): position from the arguments,
zero velocity, not on ground, customization = defaults updated by the
persisted mapping via load_customization. -/
def PlayerBall.init (x y : ℚ) (saved : SavedCustomization) : PlayerBall :=
  { x := x, y := y, vel_x := 0, vel_y := 0, on_ground := false,
    customization := load_customization saved defaultCustomization }

/-- A platform record (level_manager.py level data).  `kind` embeds the
optional `type` key (`none` for plain static platforms, `some "water"`,
`some "moving"`); the moving-only keys start_x, end_x, speed are optional. -/
structure Platform where
  x : ℚ
  y : ℚ
  width : ℚ
  height : ℚ
  kind : Option String
  start_x : Option ℚ
  end_x : Option ℚ
  speed : Option ℚ
deriving DecidableEq

/-- A plain static platform with no optional keys. -/
def Platform.mkStatic (x y w h : ℚ) : Platform :=
  { x := x, y := y, width := w, height := h,
    kind := none, start_x := none, end_x := none, speed := none }

/-- An enemy record (level_manager.py level data): rectangle, optional patrol
range `[low, high]`, optional signed speed (absent until first set;
`enemy.get(speed, 1)` defaults it to 1). -/
structure Enemy where
  x : ℚ
  y : ℚ
  width : ℚ
  height : ℚ
  patrol : Option (ℚ × ℚ)
  speed : Option ℚ
deriving DecidableEq

/-- The goal rectangle of a level. -/
structure Goal where
  x : ℚ
  y : ℚ
  width : ℚ
  height : ℚ
deriving DecidableEq

/-- PlayerBall.check_collision (player.py lines 115-140): closest point on the
rectangle by clamping, overlap when the distance to it is at most the radius
(embedded via squared distance), then one of four positional resolutions
decided by which clamp was active. -/
def check_collision (b : PlayerBall) (platform : Platform) : PlayerBall :=
  let radius := b.customization.size
  let closest_x := max platform.x (min b.x (platform.x + platform.width))
  let closest_y := max platform.y (min b.y (platform.y + platform.height))
  if (b.x - closest_x)^2 + (b.y - closest_y)^2 ≤ radius^2 then
    if closest_y = platform.y then
      { b with y := platform.y - radius,
               vel_y := -b.vel_y * b.customization.bounce_factor,
               on_ground := true }
    else if closest_y = platform.y + platform.height then
      { b with y := platform.y + platform.height + radius,
               vel_y := -b.vel_y * (1/2) }
    else if closest_x = platform.x then
      { b with x := platform.x - radius,
               vel_x := b.vel_x * (-(1/2)) }
    else
      { b with x := platform.x + platform.width + radius,
               vel_x := b.vel_x * (-(1/2)) }
  else b

/-- The screen-boundary block of PlayerBall.update (player.py lines 82-97):
two independent if/elif chains clamping x and then y to the radius margin,
reflecting or zeroing the corresponding velocity. -/
def apply_bounds (cfg : Config) (b : PlayerBall) : PlayerBall :=
  let radius := b.customization.size
  let b1 :=
    if b.x < radius then
      { b with x := radius, vel_x := b.vel_x * (-(1/2)) }
    else if b.x > cfg.SCREEN_WIDTH - radius then
      { b with x := cfg.SCREEN_WIDTH - radius, vel_x := b.vel_x * (-(1/2)) }
    else b
  if b1.y < radius then
    { b1 with y := radius, vel_y := 0 }
  else if b1.y > cfg.SCREEN_HEIGHT - radius then
    { b1 with y := cfg.SCREEN_HEIGHT - radius,
              vel_y := -b1.vel_y * b1.customization.bounce_factor,
              on_ground := true }
  else b1

/-- The kinematic prefix of PlayerBall.update (player.py lines 62-78):
gravity (halved in water), friction while on ground, position integration,
and the on_ground reset that precedes the collision loop. -/
def integrate (cfg : Config) (b : PlayerBall) (in_water : Bool) : PlayerBall :=
  let gravity := if in_water then cfg.GRAVITY * (1/2) else cfg.GRAVITY
  let b1 : PlayerBall := { b with vel_y := b.vel_y + gravity }
  let b2 := if b1.on_ground then { b1 with vel_x := b1.vel_x * friction } else b1
  { b2 with x := b2.x + b2.vel_x, y := b2.y + b2.vel_y, on_ground := false }

/-- PlayerBall.update (player.py lines 55-97): the kinematic prefix, then
collision resolution against every platform of the list in order, then the
screen boundary block. -/
def PlayerBall.update (cfg : Config) (b : PlayerBall)
    (platforms : List Platform) (in_water : Bool) : PlayerBall :=
  apply_bounds cfg (platforms.foldl check_collision (integrate cfg b in_water))

/-- The effective PlayerBall.move_left: the second definition in the class
body (player.py lines 142-145) shadows the first (lines 99-102); both bodies
are identical. -/
def move_left (b : PlayerBall) : PlayerBall :=
  if |b.vel_x| < max_vel_x then { b with vel_x := b.vel_x - acceleration }
  else b

/-- The effective PlayerBall.move_right: the second definition in the class
body (player.py lines 147-155) shadows the first (lines 104-107).  Its body
contains, after the velocity update, an inlined jump guarded by on_ground
(lines 152-155 are indented inside move_right): vel_y is set to -12 and
on_ground cleared. -/
def move_right (b : PlayerBall) : PlayerBall :=
  let b1 :=
    if |b.vel_x| < max_vel_x then { b with vel_x := b.vel_x + acceleration }
    else b
  if b1.on_ground then { b1 with vel_y := -12, on_ground := false } else b1

/-- PlayerBall.jump (player.py lines 109-113). -/
def jump (b : PlayerBall) : PlayerBall :=
  if b.on_ground then { b with vel_y := -15, on_ground := false } else b

/-- The per-level blueprint (one entry of self.levels in level_manager.py):
platforms, enemies, goal, start position.  The background color is
render-only and omitted. -/
structure LevelData where
  platforms : List Platform
  enemies : List Enemy
  goal : Goal
  start_pos : ℚ × ℚ
deriving DecidableEq

/-- Level 1 data (level_manager.py lines 16-28). -/
def level1 : LevelData :=
  { platforms :=
      [Platform.mkStatic 0 500 300 20,
       Platform.mkStatic 400 500 400 20,
       Platform.mkStatic 200 400 200 20,
       Platform.mkStatic 500 300 200 20,
       Platform.mkStatic 100 200 200 20],
    enemies := [],
    goal := { x := 150, y := 150, width := 50, height := 50 },
    start_pos := (100, 50) }

/-- Level 2 data (level_manager.py lines 31-50), including the water-surface
platform. -/
def level2 : LevelData :=
  { platforms :=
      [Platform.mkStatic 0 550 800 50,
       Platform.mkStatic 100 450 100 20,
       Platform.mkStatic 300 400 100 20,
       Platform.mkStatic 500 350 100 20,
       { Platform.mkStatic 0 500 800 50 with kind := some "water" },
       Platform.mkStatic 650 300 100 20],
    enemies :=
      [{ x := 200, y := 430, width := 30, height := 20,
         patrol := some (150, 250), speed := none }],
    goal := { x := 675, y := 250, width := 50, height := 50 },
    start_pos := (150, 400) }

/-- Level 3 data (level_manager.py lines 53-75), including the moving
platform. -/
def level3 : LevelData :=
  { platforms :=
      [Platform.mkStatic 0 550 200 50,
       Platform.mkStatic 300 550 200 50,
       Platform.mkStatic 600 550 200 50,
       Platform.mkStatic 100 450 100 20,
       Platform.mkStatic 300 400 100 20,
       Platform.mkStatic 500 350 100 20,
       { Platform.mkStatic 200 300 100 20 with
           kind := some "moving", start_x := some 200, end_x := some 400,
           speed := some 1 },
       Platform.mkStatic 650 200 100 20],
    enemies :=
      [{ x := 400, y := 530, width := 30, height := 20,
         patrol := some (350, 450), speed := none },
       { x := 600, y := 400, width := 30, height := 20,
         patrol := some (550, 650), speed := none }],
    goal := { x := 675, y := 150, width := 50, height := 50 },
    start_pos := (100, 400) }

/-- LevelManager.load_levels (level_manager.py lines 13-75): the dictionary
self.levels with the three predefined levels, embedded as an association
list keyed by level number. -/
def load_levels : List (Nat × LevelData) :=
  [(1, level1), (2, level2), (3, level3)]

/-- The mutable state of a LevelManager (level_manager.py lines 5-11).
In Python, load_level installs the blueprint lists of self.levels themselves
into self.platforms / self.enemies without copying, so the active collections
alias the blueprint; the embedding keeps both and makes the write-through of
in-place mutation explicit in LevelManager.updateDynamics. -/
structure LevelManager where
  levels : List (Nat × LevelData)
  current_level : Nat
  platforms : List Platform
  enemies : List Enemy
  goal : Option Goal
deriving DecidableEq

/-- LevelManager.__init__ (level_manager.py lines 5-11). -/
def LevelManager.initial : LevelManager :=
  { levels := load_levels, current_level := 0,
    platforms := [], enemies := [], goal := none }

/-- LevelManager.load_level (level_manager.py lines 77-86): for a known id,
set current_level and install the blueprint collections (by reference in
Python, hence literally the stored lists here) and return the start
position; for an unknown id return none and leave the state untouched. -/
def LevelManager.load_level (s : LevelManager) (level_num : Nat) :
    Option (ℚ × ℚ) × LevelManager :=
  match s.levels.lookup level_num with
  | some level_data =>
      (some level_data.start_pos,
       { s with current_level := level_num,
                platforms := level_data.platforms,
                enemies := level_data.enemies,
                goal := some level_data.goal })
  | none => (none, s)

/-- The body of the moving-platform loop in LevelManager.update
(level_manager.py lines 91-99).  The guards use `platform.get(end_x, x+100)`
and `platform.get(start_x, x-100)` against the already-advanced x, so a
taken branch implies the key is present; inside a taken branch Python reads
platform[end_x] / platform[start_x] / platform[speed] directly (the getD
defaults below are exercised only on records that Python would crash on,
which no level contains). -/
def step_platform (p : Platform) : Platform :=
  if p.kind = some "moving" then
    let x1 := p.x + p.speed.getD 1
    if x1 > p.end_x.getD (x1 + 100) then
      { p with x := p.end_x.getD 0, speed := some (-(p.speed.getD 1)) }
    else if x1 < p.start_x.getD (x1 - 100) then
      { p with x := p.start_x.getD 0, speed := some (-(p.speed.getD 1)) }
    else { p with x := x1 }
  else p

/-- The body of the enemy loop in LevelManager.update (level_manager.py
lines 102-110): advance x by `enemy.get(speed, 1)`; past the high patrol
bound snap to it and set speed to -1; past the low bound snap and set speed
to 1.  An enemy without a patrol key is untouched. -/
def step_enemy (e : Enemy) : Enemy :=
  match e.patrol with
  | none => e
  | some pr =>
      let x1 := e.x + e.speed.getD 1
      if x1 > pr.2 then { e with x := pr.2, speed := some (-1) }
      else if x1 < pr.1 then { e with x := pr.1, speed := some 1 }
      else { e with x := x1 }

/-- The dynamic-geometry part of LevelManager.update (level_manager.py
lines 88-110): step every platform and every enemy in place.  Because the
active lists alias the blueprint of the currently loaded level (see
LevelManager), the in-place mutation is visible through self.levels as well;
the embedding threads that aliasing by writing the stepped collections back
into the entry of the current level. -/
def LevelManager.updateDynamics (s : LevelManager) : LevelManager :=
  let ps := s.platforms.map step_platform
  let es := s.enemies.map step_enemy
  { s with platforms := ps, enemies := es,
           levels := s.levels.map fun kv =>
             if kv.1 = s.current_level then
               (kv.1, { kv.2 with platforms := ps, enemies := es })
             else kv }

/-- The four-branch circle-rectangle proximity test that both
LevelManager.check_goal_collision (level_manager.py lines 122-140) and
LevelManager.check_enemy_collision (lines 142-161) inline verbatim:
dx, dy are the absolute distances from the circle center to the rectangle
center; reject when either exceeds half-extent + radius; accept when the
center is within either axis band; otherwise compare the squared corner
distance with the squared radius. -/
def proximityTest (px py radius rx ry w h : ℚ) : Bool :=
  let dx := |px - (rx + w/2)|
  let dy := |py - (ry + h/2)|
  if dx > w/2 + radius then false
  else if dy > h/2 + radius then false
  else if dx ≤ w/2 ∨ dy ≤ h/2 then true
  else decide ((dx - w/2)^2 + (dy - h/2)^2 ≤ radius^2)

/-- LevelManager.check_goal_collision (level_manager.py lines 122-140):
false when no goal is loaded, else the proximity test against the goal
rectangle with the player radius customization[size]. -/
def LevelManager.check_goal_collision (s : LevelManager) (player : PlayerBall) :
    Bool :=
  match s.goal with
  | none => false
  | some g =>
      proximityTest player.x player.y player.customization.size
        g.x g.y g.width g.height

/-- LevelManager.check_enemy_collision (level_manager.py lines 142-161):
the proximity test against each enemy in list order, short-circuiting on the
first hit. -/
def LevelManager.check_enemy_collision (s : LevelManager) (player : PlayerBall) :
    Bool :=
  s.enemies.any fun e =>
    proximityTest player.x player.y player.customization.size
      e.x e.y e.width e.height

/-- The outcome value returned by LevelManager.update. -/
inductive Outcome where
  | level_complete
  | player_dead
deriving DecidableEq

/-- LevelManager.update (level_manager.py lines 88-120): step the dynamic
geometry, then report level_complete on goal proximity, else player_dead on
enemy proximity, else none. -/
def LevelManager.update (s : LevelManager) (player : PlayerBall) :
    Option Outcome × LevelManager :=
  let s1 := s.updateDynamics
  if s1.check_goal_collision player then (some Outcome.level_complete, s1)
  else if s1.check_enemy_collision player then (some Outcome.player_dead, s1)
  else (none, s1)

/-- LevelManager.get_water_platforms (level_manager.py lines 163-165). -/
def LevelManager.get_water_platforms (s : LevelManager) : List Platform :=
  s.platforms.filter fun p => p.kind = some "water"

/-- The immersion scan of Game.update (main.py lines 268-275): the ball is in
water when some water platform contains its x and its bottom edge
y + size, via chained comparisons. -/
def in_water_flag (s : LevelManager) (player : PlayerBall) : Bool :=
  s.get_water_platforms.any fun p =>
    decide (p.x ≤ player.x) && decide (player.x ≤ p.x + p.width) &&
    decide (p.y ≤ player.y + player.customization.size) &&
    decide (player.y + player.customization.size ≤ p.y + p.height)

/-- The ball-integration portion of Game.update (main.py lines 266-280):
compute the immersion flag from the water platforms, then call
`self.player.update(self.level_manager.platforms, in_water)` with the full,
unfiltered platform list of the level. -/
def game_step_ball (cfg : Config) (s : LevelManager) (player : PlayerBall) :
    PlayerBall :=
  player.update cfg s.platforms (in_water_flag s player)

/-- A persisted optional value either absent or within [lo, hi]. -/
def inRangeOpt (lo hi : ℚ) : Option ℚ → Prop
  | none => True
  | some v => lo ≤ v ∧ v ≤ hi

/-- A concrete host configuration for counterexample evaluation: the 800x600
screen implied by the level geometry, gravity 1/2. -/
def cexCfg : Config := { SCREEN_WIDTH := 800, SCREEN_HEIGHT := 600, GRAVITY := 1/2 }

/-- The manager state right after loading level 2 (the water level). -/
def cexLM : LevelManager := (LevelManager.initial.load_level 2).2

/-- A default ball hovering just above the level-2 water surface, touching
no other platform. -/
def cexBall : PlayerBall :=
  { x := 400, y := 490, vel_x := 0, vel_y := 0, on_ground := false,
    customization := defaultCustomization }

/-- check_collision never touches the customization record of the ball. -/
theorem check_collision_customization (b : PlayerBall) (p : Platform) :
    (check_collision b p).customization = b.customization := by
  simp only [check_collision]
  split_ifs <;> rfl

/-- Folding check_collision over any platform list preserves the
customization record. -/
theorem foldl_check_collision_customization (ps : List Platform)
    (b : PlayerBall) :
    (ps.foldl check_collision b).customization = b.customization := by
  induction ps generalizing b with
  | nil => rfl
  | cons p rest ih => rw [List.foldl_cons, ih, check_collision_customization]

/-- The screen-boundary block keeps the customization record. -/
theorem apply_bounds_customization (cfg : Config) (b : PlayerBall) :
    (apply_bounds cfg b).customization = b.customization := by
  simp only [apply_bounds]
  split_ifs <;> rfl

/-- After the screen-boundary block, the position lies within the radius
margins of the screen, provided the radius is within its documented range
and the screen is at least 100 pixels in each dimension. -/
theorem apply_bounds_spec (cfg : Config) (b : PlayerBall)
    (h10 : 10 ≤ b.customization.size) (h50 : b.customization.size ≤ 50)
    (hW : 100 ≤ cfg.SCREEN_WIDTH) (hH : 100 ≤ cfg.SCREEN_HEIGHT) :
    b.customization.size ≤ (apply_bounds cfg b).x ∧
    (apply_bounds cfg b).x ≤ cfg.SCREEN_WIDTH - b.customization.size ∧
    b.customization.size ≤ (apply_bounds cfg b).y ∧
    (apply_bounds cfg b).y ≤ cfg.SCREEN_HEIGHT - b.customization.size := by
  simp only [apply_bounds]
  split_ifs <;> simp_all
  all_goals repeat' apply And.intro
  all_goals linarith

/-- Lookup misses every association list whose keys avoid the query. -/
theorem lookup_none_of_not_mem_keys {α : Type} (l : List (Nat × α)) (n : Nat)
    (h : n ∉ l.map Prod.fst) : l.lookup n = none := by
  induction l with
  | nil => rfl
  | cons kv rest ih =>
      simp only [List.map_cons, List.mem_cons, not_or] at h
      have hne : (n == kv.1) = false := by
        simp only [beq_eq_false_iff_ne, ne_eq]
        exact h.1
      simp only [List.lookup, hne]
      exact ih h.2

/-- C9: the four-branch goal/enemy proximity test is translation-invariant:
translating the circle center and the rectangle by the same vector does not
change the boolean outcome. -/
theorem proximityTest_translation_invariant
    (px py radius rx ry w h tx ty : ℚ) :
    proximityTest (px + tx) (py + ty) radius (rx + tx) (ry + ty) w h
      = proximityTest px py radius rx ry w h := by
  have hx : (px + tx) - ((rx + tx) + w/2) = px - (rx + w/2) := by ring
  have hy : (py + ty) - ((ry + ty) + h/2) = py - (ry + h/2) := by ring
  simp only [proximityTest, hx, hy]

/-- C7: a moving platform whose range satisfies start_x ≤ end_x and whose
speed has magnitude at most the range length keeps its x within
[start_x, end_x] across a dynamics step; overshooting a bound snaps x to the
bound and negates the signed speed, and otherwise x advances by the speed
with the speed unchanged. -/
theorem step_platform_moving_spec (p : Platform) (s e v : ℚ)
    (hk : p.kind = some "moving") (hs : p.start_x = some s)
    (he : p.end_x = some e) (hv : p.speed = some v)
    (hse : s ≤ e) (hmag : |v| ≤ e - s)
    (hlo : s ≤ p.x) (hhi : p.x ≤ e) :
    (s ≤ (step_platform p).x ∧ (step_platform p).x ≤ e) ∧
    (if p.x + v > e then
        (step_platform p).x = e ∧ (step_platform p).speed = some (-v)
     else if p.x + v < s then
        (step_platform p).x = s ∧ (step_platform p).speed = some (-v)
     else
        (step_platform p).x = p.x + v ∧ (step_platform p).speed = some v) := by
  have habs := abs_le.mp hmag
  simp only [step_platform, hk, hs, he, hv, Option.getD_some, if_pos rfl]
  split_ifs with hgt hlt <;> simp_all

/-- C8: a patrolling enemy whose x lies within its patrol range and whose
effective speed is ±1 stays within the range after a dynamics step, the
effective speed remains ±1, and overshooting the high (resp. low) bound
snaps x to the bound and sets the speed to -1 (resp. +1). -/
theorem step_enemy_patrol_spec (en : Enemy) (lo hi s : ℚ)
    (hp : en.patrol = some (lo, hi)) (hs : en.speed.getD 1 = s)
    (hsv : s = 1 ∨ s = -1) (hlo : lo ≤ en.x) (hhi : en.x ≤ hi) :
    (lo ≤ (step_enemy en).x ∧ (step_enemy en).x ≤ hi) ∧
    ((step_enemy en).speed.getD 1 = 1 ∨ (step_enemy en).speed.getD 1 = -1) ∧
    (en.x + s > hi →
      (step_enemy en).x = hi ∧ (step_enemy en).speed = some (-1)) ∧
    (en.x + s < lo →
      (step_enemy en).x = lo ∧ (step_enemy en).speed = some 1) := by
  have hlohi : lo ≤ hi := le_trans hlo hhi
  simp only [step_enemy, hp, hs]
  split_ifs with hgt hlt
  · refine ⟨⟨hlohi, le_rfl⟩, ?_, fun _ => ⟨rfl, rfl⟩, fun h => ?_⟩
    · simp
    · exact absurd (lt_trans hgt h) (not_lt.mpr hlohi)
  · refine ⟨⟨le_rfl, hlohi⟩, ?_, fun h => ?_, fun _ => ⟨rfl, rfl⟩⟩
    · simp
    · exact absurd h hgt
  · refine ⟨⟨le_of_not_lt hlt, le_of_not_lt hgt⟩, ?_, fun h => ?_, fun h => ?_⟩
    · show en.speed.getD 1 = 1 ∨ en.speed.getD 1 = -1
      rw [hs]; exact hsv
    · exact absurd h hgt
    · exact absurd h hlt

/-- C5: calling load_level with an id outside the predefined set {1, 2, 3}
on a manager whose level table has exactly the keys 1, 2, 3 returns none and
the state itself, completely unchanged (and, being a total function, raises
nothing). -/
theorem load_level_unknown_id (s : LevelManager) (n : Nat)
    (hkeys : s.levels.map Prod.fst = [1, 2, 3])
    (h1 : n ≠ 1) (h2 : n ≠ 2) (h3 : n ≠ 3) :
    s.load_level n = (none, s) := by
  have hnone : s.levels.lookup n = none := by
    apply lookup_none_of_not_mem_keys
    rw [hkeys]
    simp [h1, h2, h3]
  simp [LevelManager.load_level, hnone]

/-- The kinematic prefix keeps the customization record. -/
theorem integrate_customization (cfg : Config) (b : PlayerBall) (w : Bool) :
    (integrate cfg b w).customization = b.customization := by
  simp only [integrate]
  split_ifs <;> rfl

/-- C3 (the code evaluated at the failing input): starting from a grounded
ball with zero velocity, the effective move_right adds the acceleration to
vel_x but ALSO sets vel_y to -12 and clears on_ground — the inlined jump of
player.py lines 152-155. -/
theorem move_right_on_ground_jumps :
    (move_right { x := 0, y := 0, vel_x := 0, vel_y := 0, on_ground := true,
                  customization := defaultCustomization }).vel_x = 4/5 ∧
    (move_right { x := 0, y := 0, vel_x := 0, vel_y := 0, on_ground := true,
                  customization := defaultCustomization }).vel_y = -12 ∧
    (move_right { x := 0, y := 0, vel_x := 0, vel_y := 0, on_ground := true,
                  customization := defaultCustomization }).on_ground = false := by
  simp [move_right, acceleration, max_vel_x]

/-- C4 counterexample: a persisted mapping carrying size = 1000 is adopted
verbatim by ball construction — the constructed size is 1000, outside the
documented range [10, 50]; nothing clamps or defaults an out-of-range
persisted value. -/
theorem init_out_of_range_not_defaulted :
    (PlayerBall.init 0 0
        { size := some 1000, bounce_factor := none, opacity := none }
      ).customization.size = 1000 ∧
    ¬ ((PlayerBall.init 0 0
        { size := some 1000, bounce_factor := none, opacity := none }
      ).customization.size ≤ 50) := by
  simp [PlayerBall.init, load_customization, defaultCustomization]
  norm_num

/-- C4 amended: ball construction defaults MISSING persisted keys to the
built-in defaults but adopts PRESENT values verbatim, so the constructed
customization fields satisfy their documented ranges exactly when every
value present in the persisted mapping is itself in range. -/
theorem init_ranges_when_saved_in_range (x y : ℚ) (saved : SavedCustomization)
    (hs : inRangeOpt 10 50 saved.size)
    (hb : inRangeOpt (1/10) 1 saved.bounce_factor)
    (ho : inRangeOpt 0 255 saved.opacity) :
    (10 ≤ (PlayerBall.init x y saved).customization.size ∧
     (PlayerBall.init x y saved).customization.size ≤ 50) ∧
    (1/10 ≤ (PlayerBall.init x y saved).customization.bounce_factor ∧
     (PlayerBall.init x y saved).customization.bounce_factor ≤ 1) ∧
    (0 ≤ (PlayerBall.init x y saved).customization.opacity ∧
     (PlayerBall.init x y saved).customization.opacity ≤ 255) := by
  obtain ⟨so, bo, oo⟩ := saved
  simp only [PlayerBall.init, load_customization, defaultCustomization] at *
  cases so <;> cases bo <;> cases oo <;>
    simp_all [inRangeOpt] <;> norm_num

/-- Lookup through a key-preserving per-entry rewrite of an association
list: the rewrite applies exactly when the query hits the rewritten key. -/
theorem lookup_map_entry {β : Type} (l : List (Nat × β)) (c : Nat)
    (f : β → β) (n : Nat) :
    (l.map fun kv => if kv.1 = c then (kv.1, f kv.2) else kv).lookup n
      = (l.lookup n).map fun v => if n = c then f v else v := by
  induction l with
  | nil => rfl
  | cons kv rest ih =>
      obtain ⟨k, v⟩ := kv
      have hhead : (if (k, v).1 = c then ((k, v).1, f (k, v).2) else (k, v))
          = (k, if k = c then f v else v) := by
        split_ifs <;> rfl
      rw [List.map_cons, hhead]
      by_cases hnk : n = k
      · subst hnk
        simp [List.lookup]
      · have hne : (n == k) = false := beq_eq_false_iff_ne.mpr hnk
        simp [List.lookup, hne, ih]

/-- C2 counterexample: load level 3, advance dynamics one frame (the moving
platform goes from x = 200 to x = 201), reload level 3 — the reloaded
platform positions show x = 201, not the blueprint original 200: load_level
installs the blueprint by reference, and mutation wrote through to it. -/
theorem load_level_reload_not_blueprint :
    (((LevelManager.initial.load_level 3).2.updateDynamics).load_level 3
        ).2.platforms.map Platform.x
      = [0, 300, 600, 100, 300, 500, 201, 650] ∧
    level3.platforms.map Platform.x
      = [0, 300, 600, 100, 300, 500, 200, 650] ∧
    (([0, 300, 600, 100, 300, 500, 201, 650] : List ℚ)
      ≠ [0, 300, 600, 100, 300, 500, 200, 650]) := by
  refine ⟨?_, ?_, ?_⟩
  · simp [LevelManager.initial, LevelManager.load_level,
      LevelManager.updateDynamics, load_levels, level1, level2, level3,
      step_platform, step_enemy, Platform.mkStatic, List.lookup]
    norm_num
  · simp [level3, Platform.mkStatic]
  · simp

/-- C2 amended: for a known level id, load_level sets the current level and
returns the blueprint start position, but installs the blueprint collections
by reference; a dynamics step therefore writes through to the blueprint, and
reloading the same level yields the STEPPED platforms and enemies, not fresh
copies of the originals. -/
theorem load_level_reload_after_update (s : LevelManager) (n : Nat)
    (ld : LevelData) (h : s.levels.lookup n = some ld) :
    ((((s.load_level n).2.updateDynamics).load_level n).1 = some ld.start_pos) ∧
    ((((s.load_level n).2.updateDynamics).load_level n).2.platforms
      = ld.platforms.map step_platform) ∧
    ((((s.load_level n).2.updateDynamics).load_level n).2.enemies
      = ld.enemies.map step_enemy) := by
  have key : (((s.load_level n).2.updateDynamics)).levels.lookup n
      = some { ld with platforms := ld.platforms.map step_platform,
                       enemies := ld.enemies.map step_enemy } := by
    simp only [LevelManager.load_level, h, LevelManager.updateDynamics]
    rw [lookup_map_entry s.levels n
      (fun v => { v with platforms := ld.platforms.map step_platform,
                         enemies := ld.enemies.map step_enemy }) n]
    simp [h]
  set s2 := (s.load_level n).2.updateDynamics with hs2
  simp [LevelManager.load_level, key]

/-- C1 counterexample: with level 2 loaded and the ball just above the water
surface, the orchestrator ball step lands the ball at y = 480 — it bounced
off the WATER platform (a top-side collision resolution) — whereas
integrating against the platform list with water platforms excluded would
leave it falling at y = 1961/4.  The orchestrator passes the full platform
list to the integration step, so water platforms are NOT excluded from
rectangle collision resolution. -/
theorem game_step_ball_water_collision_cex :
    (game_step_ball cexCfg cexLM cexBall).y = 480 ∧
    (cexBall.update cexCfg
        (cexLM.platforms.filter fun p => !(decide (p.kind = some "water")))
        (in_water_flag cexLM cexBall)).y = 1961/4 ∧
    game_step_ball cexCfg cexLM cexBall
      ≠ cexBall.update cexCfg
          (cexLM.platforms.filter fun p => !(decide (p.kind = some "water")))
          (in_water_flag cexLM cexBall) := by
  have hplat : cexLM.platforms = level2.platforms := by
    simp [cexLM, LevelManager.initial, LevelManager.load_level, load_levels,
      List.lookup]
  have hflag : in_water_flag cexLM cexBall = true := by
    simp [in_water_flag, LevelManager.get_water_platforms, hplat, level2,
      Platform.mkStatic, defaultCustomization, cexBall]
    norm_num
  have h1 : (game_step_ball cexCfg cexLM cexBall).y = 480 := by
    simp only [game_step_ball]
    rw [hplat, hflag]
    norm_num [PlayerBall.update, integrate, apply_bounds, check_collision,
      level2, Platform.mkStatic, defaultCustomization, friction, cexCfg,
      cexBall, min_def, max_def]
  have h2 : (cexBall.update cexCfg
      (cexLM.platforms.filter fun p => !(decide (p.kind = some "water")))
      (in_water_flag cexLM cexBall)).y = 1961/4 := by
    rw [hplat, hflag]
    simp [PlayerBall.update, integrate, apply_bounds, check_collision,
      level2, Platform.mkStatic, defaultCustomization, friction, cexCfg,
      cexBall, min_def, max_def]
    norm_num
  refine ⟨h1, h2, fun hEq => ?_⟩
  have hy := congrArg PlayerBall.y hEq
  rw [h1, h2] at hy
  norm_num at hy

/-- check_collision reads only the rectangle fields of the platform, never
its kind. -/
theorem check_collision_kind (b : PlayerBall) (p : Platform)
    (k : Option String) :
    check_collision b { p with kind := k } = check_collision b p := rfl

/-- The collision fold is invariant under arbitrary relabeling of platform
kinds. -/
theorem foldl_check_collision_kind (f : Platform → Option String)
    (ps : List Platform) (b : PlayerBall) :
    ((ps.map fun p => { p with kind := f p }).foldl check_collision b)
      = ps.foldl check_collision b := by
  induction ps generalizing b with
  | nil => rfl
  | cons p rest ih =>
      rw [List.map_cons, List.foldl_cons, List.foldl_cons,
        check_collision_kind, ih]

/-- C1 amended: the orchestrator ball step integrates against the FULL
platform list of the level, and collision resolution is uniform in the
platform kind — relabeling every kind arbitrarily (marking all platforms
water, or none) does not change the integration result.  Kind influences
the frame only through the immersion flag. -/
theorem game_step_ball_kind_uniform (cfg : Config) (s : LevelManager)
    (b : PlayerBall) (f : Platform → Option String) :
    game_step_ball cfg s b
      = PlayerBall.update cfg b (s.platforms.map fun p => { p with kind := f p })
          (in_water_flag s b) := by
  simp only [game_step_ball, PlayerBall.update, foldl_check_collision_kind]

/-- C6: after a single integration step against any platform list and any
immersion flag, the ball position lies within the screen bounds at the
radius margin, for any radius in the documented range [10, 50] and any host
screen of at least 100 pixels in each dimension. -/
theorem update_position_in_bounds (cfg : Config) (b : PlayerBall)
    (ps : List Platform) (w : Bool)
    (h10 : 10 ≤ b.customization.size) (h50 : b.customization.size ≤ 50)
    (hW : 100 ≤ cfg.SCREEN_WIDTH) (hH : 100 ≤ cfg.SCREEN_HEIGHT) :
    b.customization.size ≤ (b.update cfg ps w).x ∧
    (b.update cfg ps w).x ≤ cfg.SCREEN_WIDTH - b.customization.size ∧
    b.customization.size ≤ (b.update cfg ps w).y ∧
    (b.update cfg ps w).y ≤ cfg.SCREEN_HEIGHT - b.customization.size := by
  have hcust : (ps.foldl check_collision (integrate cfg b w)).customization
      = b.customization := by
    rw [foldl_check_collision_customization, integrate_customization]
  have h := apply_bounds_spec cfg (ps.foldl check_collision (integrate cfg b w))
    (by rw [hcust]; exact h10) (by rw [hcust]; exact h50) hW hH
  rw [hcust] at h
  exact h

/-- C10: after a single integration step the fell-off-world test
`y > SCREEN_HEIGHT + 100` of the game loop can never hold, for any radius in
[10, 50] and any host screen of at least 100 pixels in each dimension: the
bottom-bound clamp keeps y at most SCREEN_HEIGHT - radius. -/
theorem update_never_fell_off_world (cfg : Config) (b : PlayerBall)
    (ps : List Platform) (w : Bool)
    (h10 : 10 ≤ b.customization.size) (h50 : b.customization.size ≤ 50)
    (hW : 100 ≤ cfg.SCREEN_WIDTH) (hH : 100 ≤ cfg.SCREEN_HEIGHT) :
    ¬ ((b.update cfg ps w).y > cfg.SCREEN_HEIGHT + 100) := by
  intro hy
  have hcust : (ps.foldl check_collision (integrate cfg b w)).customization
      = b.customization := by
    rw [foldl_check_collision_customization, integrate_customization]
  have h := (apply_bounds_spec cfg (ps.foldl check_collision (integrate cfg b w))
    (by rw [hcust]; exact h10) (by rw [hcust]; exact h50) hW hH).2.2.2
  rw [hcust] at h
  have hy2 : (b.update cfg ps w).y ≤ cfg.SCREEN_HEIGHT - b.customization.size := h
  linarith

/-- Witness for C2 amended at the initial manager and level 3. -/
theorem load_level_reload_after_update_witness :
    LevelManager.initial.levels.lookup 3 = some level3 ∧
    (((((LevelManager.initial.load_level 3).2.updateDynamics).load_level 3).1
        = some level3.start_pos) ∧
     ((((LevelManager.initial.load_level 3).2.updateDynamics).load_level 3
        ).2.platforms = level3.platforms.map step_platform) ∧
     ((((LevelManager.initial.load_level 3).2.updateDynamics).load_level 3
        ).2.enemies = level3.enemies.map step_enemy)) :=
  ⟨rfl, load_level_reload_after_update LevelManager.initial 3 level3 rfl⟩

/-- Witness for C4 amended at an in-range persisted mapping with a missing
bounce key. -/
theorem init_ranges_when_saved_in_range_witness :
    inRangeOpt 10 50 (some (30:ℚ)) ∧
    inRangeOpt (1/10) 1 (none : Option ℚ) ∧
    inRangeOpt 0 255 (some (100:ℚ)) ∧
    ((10 ≤ (PlayerBall.init 0 0 ⟨some 30, none, some 100⟩).customization.size ∧
      (PlayerBall.init 0 0 ⟨some 30, none, some 100⟩).customization.size ≤ 50) ∧
     (1/10 ≤ (PlayerBall.init 0 0 ⟨some 30, none, some 100⟩
        ).customization.bounce_factor ∧
      (PlayerBall.init 0 0 ⟨some 30, none, some 100⟩
        ).customization.bounce_factor ≤ 1) ∧
     (0 ≤ (PlayerBall.init 0 0 ⟨some 30, none, some 100⟩
        ).customization.opacity ∧
      (PlayerBall.init 0 0 ⟨some 30, none, some 100⟩
        ).customization.opacity ≤ 255)) :=
  ⟨by norm_num [inRangeOpt], by simp [inRangeOpt], by norm_num [inRangeOpt],
   init_ranges_when_saved_in_range 0 0 ⟨some 30, none, some 100⟩
     (by norm_num [inRangeOpt]) (by simp [inRangeOpt])
     (by norm_num [inRangeOpt])⟩

/-- Witness for C5 at the initial manager and the undefined level id 4. -/
theorem load_level_unknown_id_witness :
    (LevelManager.initial.levels.map Prod.fst = [1, 2, 3]) ∧
    (4 ≠ 1) ∧ (4 ≠ 2) ∧ (4 ≠ 3) ∧
    LevelManager.initial.load_level 4 = (none, LevelManager.initial) :=
  ⟨rfl, by decide, by decide, by decide,
   load_level_unknown_id LevelManager.initial 4 rfl
     (by decide) (by decide) (by decide)⟩

/-- Witness for C6 at a default ball, the 800x600 screen, gravity 1/2, no
platforms, no immersion. -/
theorem update_position_in_bounds_witness :
    ((10:ℚ) ≤ 20 ∧ (20:ℚ) ≤ 50 ∧ (100:ℚ) ≤ 800 ∧ (100:ℚ) ≤ 600) ∧
    ((20:ℚ) ≤ (PlayerBall.update ⟨800, 600, 1/2⟩
        ⟨0, 0, 0, 0, false, ⟨20, 7/10, 255⟩⟩ [] false).x ∧
     (PlayerBall.update ⟨800, 600, 1/2⟩
        ⟨0, 0, 0, 0, false, ⟨20, 7/10, 255⟩⟩ [] false).x ≤ 800 - 20 ∧
     (20:ℚ) ≤ (PlayerBall.update ⟨800, 600, 1/2⟩
        ⟨0, 0, 0, 0, false, ⟨20, 7/10, 255⟩⟩ [] false).y ∧
     (PlayerBall.update ⟨800, 600, 1/2⟩
        ⟨0, 0, 0, 0, false, ⟨20, 7/10, 255⟩⟩ [] false).y ≤ 600 - 20) :=
  ⟨by norm_num,
   update_position_in_bounds ⟨800, 600, 1/2⟩
     ⟨0, 0, 0, 0, false, ⟨20, 7/10, 255⟩⟩ [] false
     (by norm_num) (by norm_num) (by norm_num) (by norm_num)⟩

/-- Witness for C7 at the level-3 moving platform. -/
theorem step_platform_moving_spec_witness :
    ((Platform.mk 200 300 100 20 (some "moving") (some 200) (some 400)
        (some 1)).kind = some "moving" ∧
     (Platform.mk 200 300 100 20 (some "moving") (some 200) (some 400)
        (some 1)).start_x = some 200 ∧
     (Platform.mk 200 300 100 20 (some "moving") (some 200) (some 400)
        (some 1)).end_x = some 400 ∧
     (Platform.mk 200 300 100 20 (some "moving") (some 200) (some 400)
        (some 1)).speed = some 1 ∧
     (200:ℚ) ≤ 400 ∧ |(1:ℚ)| ≤ 400 - 200 ∧ (200:ℚ) ≤ 200 ∧ (200:ℚ) ≤ 400) ∧
    ((200 ≤ (step_platform (Platform.mk 200 300 100 20 (some "moving")
        (some 200) (some 400) (some 1))).x ∧
      (step_platform (Platform.mk 200 300 100 20 (some "moving") (some 200)
        (some 400) (some 1))).x ≤ 400) ∧
     (if (200:ℚ) + 1 > 400 then
        (step_platform (Platform.mk 200 300 100 20 (some "moving") (some 200)
          (some 400) (some 1))).x = 400 ∧
        (step_platform (Platform.mk 200 300 100 20 (some "moving") (some 200)
          (some 400) (some 1))).speed = some (-1)
      else if (200:ℚ) + 1 < 200 then
        (step_platform (Platform.mk 200 300 100 20 (some "moving") (some 200)
          (some 400) (some 1))).x = 200 ∧
        (step_platform (Platform.mk 200 300 100 20 (some "moving") (some 200)
          (some 400) (some 1))).speed = some (-1)
      else
        (step_platform (Platform.mk 200 300 100 20 (some "moving") (some 200)
          (some 400) (some 1))).x = 200 + 1 ∧
        (step_platform (Platform.mk 200 300 100 20 (some "moving") (some 200)
          (some 400) (some 1))).speed = some 1)) :=
  ⟨⟨rfl, rfl, rfl, rfl, by norm_num, by norm_num, by norm_num, by norm_num⟩,
   step_platform_moving_spec
     (Platform.mk 200 300 100 20 (some "moving") (some 200) (some 400)
       (some 1)) 200 400 1 rfl rfl rfl rfl
     (by norm_num) (by norm_num) (by norm_num) (by norm_num)⟩

/-- Witness for C8 at the first level-3 enemy. -/
theorem step_enemy_patrol_spec_witness :
    ((Enemy.mk 400 530 30 20 (some (350, 450)) none).patrol
        = some (350, 450) ∧
     (Enemy.mk 400 530 30 20 (some (350, 450)) none).speed.getD 1 = 1 ∧
     ((1:ℚ) = 1 ∨ (1:ℚ) = -1) ∧ (350:ℚ) ≤ 400 ∧ (400:ℚ) ≤ 450) ∧
    ((350 ≤ (step_enemy (Enemy.mk 400 530 30 20 (some (350, 450)) none)).x ∧
      (step_enemy (Enemy.mk 400 530 30 20 (some (350, 450)) none)).x ≤ 450) ∧
     ((step_enemy (Enemy.mk 400 530 30 20 (some (350, 450)) none)
        ).speed.getD 1 = 1 ∨
      (step_enemy (Enemy.mk 400 530 30 20 (some (350, 450)) none)
        ).speed.getD 1 = -1) ∧
     ((400:ℚ) + 1 > 450 →
       (step_enemy (Enemy.mk 400 530 30 20 (some (350, 450)) none)).x = 450 ∧
       (step_enemy (Enemy.mk 400 530 30 20 (some (350, 450)) none)).speed
         = some (-1)) ∧
     ((400:ℚ) + 1 < 350 →
       (step_enemy (Enemy.mk 400 530 30 20 (some (350, 450)) none)).x = 350 ∧
       (step_enemy (Enemy.mk 400 530 30 20 (some (350, 450)) none)).speed
         = some 1)) :=
  ⟨⟨rfl, rfl, Or.inl rfl, by norm_num, by norm_num⟩,
   step_enemy_patrol_spec (Enemy.mk 400 530 30 20 (some (350, 450)) none)
     350 450 1 rfl rfl (Or.inl rfl) (by norm_num) (by norm_num)⟩

/-- Witness for C10 at a default ball, the 800x600 screen, gravity 1/2, no
platforms, no immersion. -/
theorem update_never_fell_off_world_witness :
    ((10:ℚ) ≤ 20 ∧ (20:ℚ) ≤ 50 ∧ (100:ℚ) ≤ 800 ∧ (100:ℚ) ≤ 600) ∧
    ¬ ((PlayerBall.update ⟨800, 600, 1/2⟩
        ⟨100, 100, 0, 0, false, ⟨20, 7/10, 255⟩⟩ [] false).y > 600 + 100) :=
  ⟨by norm_num,
   update_never_fell_off_world ⟨800, 600, 1/2⟩
     ⟨100, 100, 0, 0, false, ⟨20, 7/10, 255⟩⟩ [] false
     (by norm_num) (by norm_num) (by norm_num) (by norm_num)⟩
